import Mathlib

/-!
Verification of the Banana Clicker backend (src/main.py, src/enhanced_game.py,
src/validator.py).  Python floats are modelled as rationals, Python `int()`
truncation as `pyInt`, `math.floor` as `Int.floor`, `math.ceil` as `Int.ceil`,
and Python dicts keyed by an element's own id as lists kept in insertion order
(key uniqueness holds at every construction site in the source, so in-place
dict update is modelled by updating the matching list element).  Wall-clock
inputs (`time.time() * 1000`, `datetime.utcnow().isoformat()`) are passed as
explicit parameters.  Persistence (`save_data`/`load_data`) and the HTTP layer
are abstracted away: each operation acts on the session state handed to it.
-/

/-- Python `int(x)` applied to a float: truncation toward zero. -/
def pyInt (q : ℚ) : Int := if 0 ≤ q then ⌊q⌋ else ⌈q⌉

namespace Main

/-- main.py `GameState` (pydantic model). -/
structure GameState where
  sessionId : String
  bananas : ℚ
  bananasPerClick : Int
  bananasPerSecond : ℚ
  totalClicks : Int
  lastSyncTime : ℚ
  playerName : String
deriving DecidableEq

/-- main.py `UpgradeType`. -/
structure UpgradeType where
  id : String
  name : String
  baseCost : Int
  multiplier : Int
  type : String
  owned : Nat
deriving DecidableEq

/-- main.py `LeaderboardEntry` — note it carries the session identifier. -/
structure LeaderboardEntry where
  name : String
  score : Int
  date : String
  sessionId : String
deriving DecidableEq

/-- main.py `calculate_upgrade_cost`: `floor(baseCost * 1.15 ** owned)`. -/
def calculate_upgrade_cost (u : UpgradeType) : Int :=
  ⌊(u.baseCost : ℚ) * (1.15 : ℚ) ^ u.owned⌋

/-- main.py `calculate_bananas_per_second`: sum over auto upgrades. -/
def calculate_bananas_per_second (upgrades : List UpgradeType) : ℚ :=
  upgrades.foldl
    (fun total u =>
      if u.type == "auto" && u.owned > 0 then total + (u.multiplier : ℚ) * (u.owned : ℚ) else total) 0

/-- main.py `calculate_bananas_per_click`: base 1 plus sum over click upgrades. -/
def calculate_bananas_per_click (upgrades : List UpgradeType) : Int :=
  upgrades.foldl
    (fun total u =>
      if u.type == "click" && u.owned > 0 then total + u.multiplier * (u.owned : Int) else total) 1

/-- main.py `calculate_time_based_earnings`: per-second yield times elapsed
seconds since last sync, capped at 8 hours (28800 s). -/
def calculate_time_based_earnings (gs : GameState) (nowMs : ℚ) : ℚ :=
  if gs.bananasPerSecond ≤ 0 then 0
  else gs.bananasPerSecond * min ((nowMs - gs.lastSyncTime) / 1000) 28800

/-- main.py `calculate_total_spent_on_upgrades`: historical cost of every
purchase step `n = 0 .. owned-1`. -/
def calculate_total_spent_on_upgrades (upgrades : List UpgradeType) : Int :=
  upgrades.foldl
    (fun acc u =>
      acc + (List.range u.owned).foldl (fun s n => s + ⌊(u.baseCost : ℚ) * (1.15 : ℚ) ^ n⌋) 0) 0

/-- main.py `calculate_maximum_possible_bananas`.  The source computes
`session_age_seconds = (current_time - game_state.lastSyncTime) / 1000`
— i.e. from the last-sync timestamp, despite the adjacent comment
"(since session creation)". -/
def calculate_maximum_possible_bananas (gs : GameState) (upgrades : List UpgradeType)
    (nowMs : ℚ) : Int :=
  let maxFromClicks : ℚ := (gs.totalClicks : ℚ) * (gs.bananasPerClick : ℚ)
  let sessionAgeSeconds := (nowMs - gs.lastSyncTime) / 1000
  let timeForGeneration := min sessionAgeSeconds 28800
  let maxFromTime := gs.bananasPerSecond * timeForGeneration
  let totalSpent := calculate_total_spent_on_upgrades upgrades
  max 0 (pyInt (maxFromClicks + maxFromTime - (totalSpent : ℚ)))

/-- Result of main.py `sync_game` for a known session (success flag plus the
updated state; the leaderboard side effect is modelled separately). -/
structure SyncResult where
  success : Bool
  state : GameState
deriving DecidableEq

/-- main.py `sync_game` body for a known session: clamp clicks to
`ceil(elapsed * 20)`, credit time earnings and click earnings, advance
counters and recompute yields. -/
def sync_game (gs : GameState) (upgrades : List UpgradeType) (pendingClicks : Int)
    (nowMs : ℚ) : SyncResult :=
  let timeSinceLastSync := (nowMs - gs.lastSyncTime) / 1000
  let maxPossibleClicks := ⌈timeSinceLastSync * 20⌉
  let actualClicks := if pendingClicks > maxPossibleClicks then maxPossibleClicks else pendingClicks
  let timeEarnings := calculate_time_based_earnings gs nowMs
  let clickEarnings : ℚ := (actualClicks : ℚ) * (gs.bananasPerClick : ℚ)
  let gs1 : GameState :=
    { gs with
      bananas := gs.bananas + timeEarnings + clickEarnings
      totalClicks := gs.totalClicks + actualClicks
      lastSyncTime := nowMs }
  let gs2 : GameState :=
    { gs1 with
      bananasPerClick := calculate_bananas_per_click upgrades
      bananasPerSecond := calculate_bananas_per_second upgrades }
  ⟨true, gs2⟩

/-- Outcome of main.py `buy_upgrade` for a known session. -/
inductive BuyResult where
  | fail (msg : String) (state : GameState) (upgrades : List UpgradeType)
  | ok (state : GameState) (upgrades : List UpgradeType)
deriving DecidableEq

/-- main.py `buy_upgrade` body for a known session. -/
def buy_upgrade (gs : GameState) (upgrades : List UpgradeType) (upgradeId : String) : BuyResult :=
  match upgrades.find? (fun u => u.id == upgradeId) with
  | none => .fail "Invalid upgrade" gs upgrades
  | some u =>
    let cost := calculate_upgrade_cost u
    if gs.bananas < (cost : ℚ) then
      .fail "Not enough bananas" gs upgrades
    else
      let newUpgrades :=
        upgrades.map (fun v => if v.id == upgradeId then { v with owned := v.owned + 1 } else v)
      let gs1 := { gs with bananas := gs.bananas - (cost : ℚ) }
      let gs2 :=
        { gs1 with
          bananasPerClick := calculate_bananas_per_click newUpgrades
          bananasPerSecond := calculate_bananas_per_second newUpgrades }
      .ok gs2 newUpgrades

/-- Descending-score ordering used by `sorted(..., key=lambda x: x.score, reverse=True)`.
Tie order among equal scores is not significant for any stated property. -/
def scoreGe (a b : LeaderboardEntry) : Prop := b.score ≤ a.score

instance : DecidableRel scoreGe := fun a b => (inferInstance : Decidable (b.score ≤ a.score))
instance : IsTotal LeaderboardEntry scoreGe := ⟨fun a b => le_total b.score a.score⟩
instance : IsTrans LeaderboardEntry scoreGe := ⟨fun _ _ _ h1 h2 => le_trans h2 h1⟩

/-- In-place mutation of the first entry with the given session id
(session ids are unique in the stored leaderboard). -/
def replaceFirst (lb : List LeaderboardEntry) (sid : String)
    (f : LeaderboardEntry → LeaderboardEntry) : List LeaderboardEntry :=
  match lb with
  | [] => []
  | x :: xs => if x.sessionId == sid then f x :: xs else x :: replaceFirst xs sid f

/-- main.py `update_leaderboard`, step 1: update the existing entry only when
the new score strictly exceeds the stored one, else create a new entry. -/
def updateStep (lb : List LeaderboardEntry) (sid playerName : String) (score : Int)
    (nowIso : String) : List LeaderboardEntry :=
  match lb.find? (fun e => e.sessionId == sid) with
  | some e =>
    if e.score < score then
      replaceFirst lb sid (fun x => { x with score := score, name := playerName, date := nowIso })
    else lb
  | none => lb ++ [{ name := playerName.take 20, score := score, date := nowIso, sessionId := sid }]

/-- main.py `update_leaderboard`: update step, then sort descending by score
and keep the top 10. -/
def update_leaderboard (lb : List LeaderboardEntry) (sid playerName : String) (score : Int)
    (nowIso : String) : List LeaderboardEntry :=
  (List.insertionSort scoreGe (updateStep lb sid playerName score nowIso)).take 10

/-- main.py `get_leaderboard` (also the `/game/leaderboard` endpoint body):
returns the stored entries themselves, session identifier included. -/
def get_leaderboard (lb : List LeaderboardEntry) : List LeaderboardEntry :=
  (List.insertionSort scoreGe lb).take 10

end Main

namespace Validator

/-- Structural model of Python `str.split(sep)` for a one-character separator,
over the string's character list. -/
def splitOnChar (sep : Char) : List Char → List (List Char)
  | [] => [[]]
  | c :: cs =>
    let r := splitOnChar sep cs
    if c = sep then [] :: r
    else (c :: r.headD []) :: r.tail

/-- Decimal digit value of a character, if any. -/
def digitVal? (c : Char) : Option Nat :=
  if '0' ≤ c ∧ c ≤ '9' then some (c.toNat - '0'.toNat) else none

/-- Model of Python `float(s)` restricted to the digit strings the backend
actually embeds in identifiers (`int(time.time())`, whole seconds); `none`
models the parse raising on anything else. -/
def natOfDigits? (cs : List Char) : Option Nat :=
  if cs = [] then none
  else cs.foldl (fun acc c => acc.bind (fun n => (digitVal? c).map (fun d => n * 10 + d))) (some 0)

/-- validator.py `validate_session`: session-creation time in ms parsed out of
the session identifier (`float(session_id.split('-')[1]) * 1000`). -/
def session_creation_ms (sessionId : String) : Option ℚ :=
  (((splitOnChar '-' sessionId.data).get? 1).bind natOfDigits?).map (fun n => (n : ℚ) * 1000)

/-- validator.py `validate_session`: `max_from_time = bananas_per_second *
min(total_session_time_seconds, 8*60*60)` where the session time runs from the
creation timestamp embedded in the identifier. -/
def max_from_time (bananasPerSecond : ℚ) (sessionId : String) (nowMs : ℚ) : Option ℚ :=
  (session_creation_ms sessionId).map
    (fun creationMs => bananasPerSecond * min ((nowMs - creationMs) / 1000) 28800)

/-- validator.py `validate_session`: `max_from_clicks = total_clicks * bananas_per_click`. -/
def max_from_clicks (totalClicks bananasPerClick : Int) : Int :=
  totalClicks * bananasPerClick

end Validator

namespace Enh

/-- enhanced_game.py active temporary boost (entry of `GameState.activeBoosts`;
the source stores dicts with `active` and `multiplier` keys). -/
structure Boost where
  active : Bool
  multiplier : ℚ
deriving DecidableEq

/-- enhanced_game.py `GameState`. -/
structure GameState where
  sessionId : String
  bananas : ℚ
  bananasPerClick : Int
  bananasPerSecond : ℚ
  totalClicks : Int
  lastSyncTime : ℚ
  playerName : String
  bananaDNA : Int
  totalBananasEarned : ℚ
  prestigeCount : Int
  selectedSkin : String
  ownedSkins : List String
  activeBoosts : List Boost
  lastEventCheck : ℚ
deriving DecidableEq

/-- enhanced_game.py `UpgradeType`; the only key used in `unlockRequirement`
dicts is `prestigeCount`, modelled as the optional payload. -/
structure UpgradeType where
  id : String
  name : String
  baseCost : Int
  multiplier : Int
  type : String
  owned : Nat
  description : String
  unlockRequirement : Option Int
deriving DecidableEq

/-- enhanced_game.py `Achievement`; `requirement` and `reward` dicts are
modelled by their `type`/`value` fields. -/
structure Achievement where
  id : String
  name : String
  description : String
  reqType : String
  reqValue : Int
  rewardType : String
  rewardValue : ℚ
  unlocked : Bool
  unlockedAt : Option String
deriving DecidableEq

/-- enhanced_game.py `ActiveEvent`. -/
structure ActiveEvent where
  id : String
  type : String
  startTime : ℚ
  duration : ℚ
  multiplier : ℚ
  active : Bool
deriving DecidableEq

/-- enhanced_game.py `LeaderboardEntry` (internal storage, with session id). -/
structure LeaderboardEntry where
  name : String
  score : Int
  date : String
  sessionId : String
  prestigeCount : Int
deriving DecidableEq

/-- enhanced_game.py `PublicLeaderboardEntry` — the sanitized display shape. -/
structure PublicLeaderboardEntry where
  name : String
  score : Int
  date : String
  prestigeCount : Int
deriving DecidableEq

/-- enhanced_game.py `DEFAULT_UPGRADES` (the full 17-entry catalog). -/
def DEFAULT_UPGRADES : List UpgradeType := [
  ⟨"click_1", "Better Fingers", 10, 1, "click", 0, "🖱️ +1 banana per click", none⟩,
  ⟨"click_2", "Stronger Arms", 100, 5, "click", 0, "🖱️ +5 bananas per click", none⟩,
  ⟨"click_3", "Banana Gloves", 1000, 10, "click", 0, "🖱️ +10 bananas per click", none⟩,
  ⟨"click_4", "Banana Peeler", 10000, 25, "click", 0, "🖱️ +25 bananas per click", none⟩,
  ⟨"click_5", "Golden Banana Touch", 100000, 100, "click", 0, "🖱️ +100 bananas per click", none⟩,
  ⟨"auto_1", "Banana Tree", 50, 1, "auto", 0, "⚙️ +1 banana/sec", none⟩,
  ⟨"auto_2", "Banana Harvester Bot", 500, 5, "auto", 0, "⚙️ +5 bananas/sec", none⟩,
  ⟨"auto_3", "Banana Plantation", 5000, 20, "auto", 0, "⚙️ +20 bananas/sec", none⟩,
  ⟨"auto_4", "Banana Factory", 50000, 60, "auto", 0, "⚙️ +60 bananas/sec", none⟩,
  ⟨"auto_5", "Banana Enrichment Center", 500000, 120, "auto", 0, "⚙️ +120 bananas/sec", none⟩,
  ⟨"auto_6", "Banana Shipping Fleet", 5000000, 500, "auto", 0, "⚙️ +500 bananas/sec", none⟩,
  ⟨"auto_7", "Banana Space Program", 50000000, 2000, "auto", 0, "⚙️ +2000 bananas/sec", none⟩,
  ⟨"auto_8", "Banana Multiverse Farm", 500000000, 10000, "auto", 0, "⚙️ +10000 bananas/sec", none⟩,
  ⟨"synergy_1", "Auto-clicker Bots", 1000000, 1, "synergy", 0, "⚡ Automatically clicks once every 10 second", none⟩,
  ⟨"synergy_2", "Photosynthetic Bananas", 100000000, 1, "synergy", 0, "⚡ Auto upgrades boost click power by 10%", none⟩,
  ⟨"prestige_1", "Banana Deity Blessing", 10, 5, "prestige", 0, "x2 global multiplier (Cost: DNA)", some 1⟩,
  ⟨"prestige_2", "Quantum Peel Generator", 50, 2, "prestige", 0, "Doubles auto production (Cost: DNA)", some 1⟩]

/-- enhanced_game.py `DEFAULT_ACHIEVEMENTS` — seven list entries, two of which
share the id `"ach_prestige_2"`. -/
def DEFAULT_ACHIEVEMENTS : List Achievement := [
  ⟨"ach_clicks_1", "First Steps", "Click 100 times", "clicks", 100, "multiplier", 1/100, false, none⟩,
  ⟨"ach_clicks_2", "Click Master", "Click 1,000 times", "clicks", 1000, "multiplier", 1/100, false, none⟩,
  ⟨"ach_bananas_3", "Banana Hoarder", "Collect 10,000 bananas", "bananas", 10000, "multiplier", 1/100, false, none⟩,
  ⟨"ach_bananas_4", "Banana Millionaire", "Collect 1,000,000 bananas", "bananas", 1000000, "multiplier", 1/100, false, none⟩,
  ⟨"ach_prestige_1", "Ascended", "Prestige once", "prestige", 1, "multiplier", 1/20, false, none⟩,
  ⟨"ach_prestige_2", "Ascend addict", "Prestige 10 times", "prestige", 10, "multiplier", 1/20, false, none⟩,
  ⟨"ach_prestige_2", "GOD", "Prestige 100 times", "prestige", 10, "multiplier", 1/20, false, none⟩]

/-- Python dict insert keyed by achievement id: overwrite in place when the key
exists (keeping its position), else append. -/
def dictInsertAch (l : List Achievement) (a : Achievement) : List Achievement :=
  if l.any (fun b => b.id == a.id) then l.map (fun b => if b.id == a.id then a else b)
  else l ++ [a]

/-- enhanced_game.py `create_default_achievements`: builds the per-session dict
keyed by achievement id from `DEFAULT_ACHIEVEMENTS` (later duplicates win);
modelled as the dict's values in key-insertion order. -/
def create_default_achievements : List Achievement :=
  DEFAULT_ACHIEVEMENTS.foldl dictInsertAch []

/-- Python dict insert keyed by upgrade id (same semantics as `dictInsertAch`). -/
def dictInsertUp (l : List UpgradeType) (u : UpgradeType) : List UpgradeType :=
  if l.any (fun v => v.id == u.id) then l.map (fun v => if v.id == u.id then u else v)
  else l ++ [u]

/-- enhanced_game.py `create_default_upgrades` (dict values in insertion order). -/
def create_default_upgrades : List UpgradeType :=
  DEFAULT_UPGRADES.foldl dictInsertUp []

/-- enhanced_game.py `calculate_upgrade_cost`: flat DNA cost for prestige
upgrades, otherwise `floor(baseCost * 1.15 ** owned)`. -/
def calculate_upgrade_cost (u : UpgradeType) : Int :=
  if u.type == "prestige" then u.baseCost
  else ⌊(u.baseCost : ℚ) * (1.15 : ℚ) ^ u.owned⌋

/-- enhanced_game.py `get_global_multiplier`, written in source evaluation
order: start at `1.0`, add the DNA bonus, multiply in the `prestige_1` factor,
add achievement bonuses, multiply in active boost multipliers. -/
def get_global_multiplier (gs : GameState) (upgrades : List UpgradeType)
    (achievements : List Achievement) : ℚ :=
  let m1 : ℚ := 1 + (gs.bananaDNA : ℚ) * (1/100)
  let m2 : ℚ :=
    match upgrades.find? (fun u => u.id == "prestige_1") with
    | some u => if u.owned > 0 then m1 * (u.multiplier : ℚ) ^ u.owned else m1
    | none => m1
  let m3 : ℚ :=
    achievements.foldl
      (fun m a => if a.unlocked && a.rewardType == "multiplier" then m + a.rewardValue else m) m2
  gs.activeBoosts.foldl (fun m b => if b.active then m * b.multiplier else m) m3

/-- enhanced_game.py `calculate_bananas_per_click`. -/
def calculate_bananas_per_click (upgrades : List UpgradeType) (gs : GameState)
    (achievements : List Achievement) : Int :=
  let base : Int :=
    upgrades.foldl
      (fun total u =>
        if u.type == "click" && u.owned > 0 then total + u.multiplier * (u.owned : Int) else total) 1
  let withSynergy : Int :=
    match upgrades.find? (fun u => u.id == "synergy_2") with
    | some s =>
      if s.owned > 0 then
        let autoCount : Nat :=
          upgrades.foldl (fun n u => if u.type == "auto" then n + u.owned else n) 0
        base + pyInt ((autoCount : ℚ) * (1/10) * (base : ℚ))
      else base
    | none => base
  pyInt ((Int.cast withSynergy : ℚ) * get_global_multiplier gs upgrades achievements)

/-- enhanced_game.py `calculate_bananas_per_second`. -/
def calculate_bananas_per_second (upgrades : List UpgradeType) (gs : GameState)
    (achievements : List Achievement) : ℚ :=
  let base : ℚ :=
    upgrades.foldl
      (fun total u =>
        if u.type == "auto" && u.owned > 0 then total + (u.multiplier : ℚ) * (u.owned : ℚ) else total) 0
  let withBots : ℚ :=
    match upgrades.find? (fun u => u.id == "synergy_1") with
    | some s =>
      if s.owned > 0 then
        let bpc := calculate_bananas_per_click upgrades gs achievements
        base + ((Int.fdiv (bpc * (s.owned : Int)) 10 : Int) : ℚ)
      else base
    | none => base
  let withQuantum : ℚ :=
    match upgrades.find? (fun u => u.id == "prestige_2") with
    | some p => if p.owned > 0 then withBots * (p.multiplier : ℚ) ^ p.owned else withBots
    | none => withBots
  withQuantum * get_global_multiplier gs upgrades achievements

/-- enhanced_game.py `check_achievements`: unlock each still-locked achievement
whose metric meets its threshold; already-unlocked achievements pass through
unchanged.  `nowIso` models `datetime.utcnow().isoformat()`. -/
def check_achievements (gs : GameState) (achievements : List Achievement)
    (nowIso : String) : List Achievement :=
  achievements.map (fun a =>
    if a.unlocked then a
    else
      let hit : Bool :=
        if a.reqType == "clicks" then decide (gs.totalClicks ≥ a.reqValue)
        else if a.reqType == "bananas" then decide (gs.totalBananasEarned ≥ (a.reqValue : ℚ))
        else if a.reqType == "prestige" then decide (gs.prestigeCount ≥ a.reqValue)
        else false
      if hit then { a with unlocked := true, unlockedAt := some nowIso } else a)

/-- Result of enhanced_game.py `sync_game` for a known session. -/
structure SyncResult where
  success : Bool
  state : GameState
  achievements : List Achievement
deriving DecidableEq

/-- enhanced_game.py `sync_game` body for a known session: clamp clicks to
`ceil(elapsed * 20)`, credit click earnings plus *uncapped* time earnings
(multiplied by any active rain event's multiplier), advance counters and the
lifetime total, recompute yields, run the achievement check.  The probabilistic
event spawn touches only the event registry and `lastEventCheck`, never the
earnings, and is omitted. -/
def sync_game (gs : GameState) (upgrades : List UpgradeType)
    (achievements : List Achievement) (pendingClicks : Int) (nowMs : ℚ)
    (events : List ActiveEvent) (nowIso : String) : SyncResult :=
  let timeSinceLast := (nowMs - gs.lastSyncTime) / 1000
  let maxClicks := ⌈timeSinceLast * 20⌉
  let actualClicks := min pendingClicks maxClicks
  let clickEarnings : ℚ := (actualClicks : ℚ) * (gs.bananasPerClick : ℚ)
  let timeEarnings0 := gs.bananasPerSecond * timeSinceLast
  let timeEarnings :=
    events.foldl (fun te ev => if ev.type == "rain" then te * ev.multiplier else te) timeEarnings0
  let totalEarned := timeEarnings + clickEarnings
  let gs1 : GameState :=
    { gs with
      bananas := gs.bananas + totalEarned
      totalBananasEarned := gs.totalBananasEarned + totalEarned
      totalClicks := gs.totalClicks + actualClicks
      lastSyncTime := nowMs }
  let gs2 : GameState :=
    { gs1 with
      bananasPerClick := calculate_bananas_per_click upgrades gs1 achievements
      bananasPerSecond := calculate_bananas_per_second upgrades gs1 achievements }
  ⟨true, gs2, check_achievements gs2 achievements nowIso⟩

/-- Outcome of enhanced_game.py `buy_upgrade`.  `crash` records an unhandled
Python exception escaping the handler (state not yet mutated at that point). -/
inductive BuyOutcome where
  | crash (kind : String)
  | fail (msg : String) (state : GameState) (upgrades : List UpgradeType)
  | ok (state : GameState) (upgrades : List UpgradeType)
deriving DecidableEq

/-- enhanced_game.py `buy_upgrade` body for a known session, faithful to the
source's control flow: when `unlockRequirement` is set, both branches touch the
local `cost` before it is ever assigned (a `NameError`); when it is absent, a
non-prestige purchase with insufficient funds formats
`upgrade.unlockRequirement['prestigeCount']` on `None` (a `TypeError`), and a
funded non-prestige purchase increments `owned` without ever debiting
`bananas` (the debit statement sits in the unreachable unlock block). -/
def buy_upgrade (gs : GameState) (upgrades : List UpgradeType)
    (achievements : List Achievement) (upgradeId : String) : BuyOutcome :=
  match upgrades.find? (fun u => u.id == upgradeId) with
  | none => .fail "Invalid upgrade" gs upgrades
  | some u =>
    match u.unlockRequirement with
    | some req =>
      if gs.prestigeCount < req then .crash "NameError"
      else .crash "NameError"
    | none =>
      if u.type == "prestige" then
        let cost := calculate_upgrade_cost u
        if gs.bananaDNA < cost then .fail "Need DNA" gs upgrades
        else
          let gs1 := { gs with bananaDNA := gs.bananaDNA - cost }
          let newUpgrades :=
            upgrades.map (fun v => if v.id == upgradeId then { v with owned := v.owned + 1 } else v)
          let gs2 :=
            { gs1 with
              bananasPerClick := calculate_bananas_per_click newUpgrades gs1 achievements
              bananasPerSecond := calculate_bananas_per_second newUpgrades gs1 achievements }
          .ok gs2 newUpgrades
      else
        let cost := calculate_upgrade_cost u
        if gs.bananas < (cost : ℚ) then .crash "TypeError"
        else
          let newUpgrades :=
            upgrades.map (fun v => if v.id == upgradeId then { v with owned := v.owned + 1 } else v)
          let gs2 :=
            { gs with
              bananasPerClick := calculate_bananas_per_click newUpgrades gs achievements
              bananasPerSecond := calculate_bananas_per_second newUpgrades gs achievements }
          .ok gs2 newUpgrades

/-- Result of enhanced_game.py `prestige_game`. -/
structure PrestigeResult where
  success : Bool
  state : GameState
  upgrades : List UpgradeType
  achievements : List Achievement
  bananaDNAGained : Int
deriving DecidableEq

/-- enhanced_game.py `prestige_game` body for a known session: gate on one
billion lifetime bananas, award `int(lifetime / 100_000_000)` DNA, reset the
run while preserving name, skins, DNA, achievements and prestige-category
upgrade records, then recompute yields.  The failure response carries an empty
upgrade list, as in the source. -/
def prestige_game (gs : GameState) (upgrades : List UpgradeType)
    (achievements : List Achievement) (nowMs : ℚ) (nowIso : String) : PrestigeResult :=
  if gs.totalBananasEarned < 1000000000 then
    ⟨false, gs, [], achievements, 0⟩
  else
    let dnaGained := pyInt (gs.totalBananasEarned / 100000000)
    let prestigeUpgrades := upgrades.filter (fun u => u.type == "prestige")
    let newUpgrades :=
      create_default_upgrades.map (fun d =>
        match prestigeUpgrades.find? (fun u => u.id == d.id) with
        | some u => u
        | none => d)
    let gs1 : GameState :=
      { gs with
        bananas := 0
        bananasPerClick := 1
        bananasPerSecond := 0
        totalClicks := 0
        totalBananasEarned := 0
        bananaDNA := gs.bananaDNA + dnaGained
        prestigeCount := gs.prestigeCount + 1
        activeBoosts := []
        lastSyncTime := nowMs }
    let achs1 := check_achievements gs1 achievements nowIso
    let gs2 : GameState :=
      { gs1 with
        bananasPerClick := calculate_bananas_per_click newUpgrades gs1 achs1
        bananasPerSecond := calculate_bananas_per_second newUpgrades gs1 achs1 }
    ⟨true, gs2, newUpgrades, achs1, dnaGained⟩

/-- enhanced_game.py `click_event` for a `"golden"` event: award
`max(int(bananas * 0.01), 100)`, credited to both current and lifetime
currency; returns (reward, updated state). -/
def click_event_golden (gs : GameState) : Int × GameState :=
  let reward := max (pyInt (gs.bananas * (1/100))) 100
  (reward,
    { gs with
      bananas := gs.bananas + (reward : ℚ)
      totalBananasEarned := gs.totalBananasEarned + (reward : ℚ) })

/-- enhanced_game.py `sanitize_leaderboard`: drop the session identifier,
keeping name, score, date and prestige count. -/
def sanitize_leaderboard (entries : List LeaderboardEntry) : List PublicLeaderboardEntry :=
  entries.map (fun e => ⟨e.name, e.score, e.date, e.prestigeCount⟩)

/-- Descending-score ordering for the enhanced leaderboard. -/
def scoreGe (a b : LeaderboardEntry) : Prop := b.score ≤ a.score

instance : DecidableRel scoreGe := fun a b => (inferInstance : Decidable (b.score ≤ a.score))
instance : IsTotal LeaderboardEntry scoreGe := ⟨fun a b => le_total b.score a.score⟩
instance : IsTrans LeaderboardEntry scoreGe := ⟨fun _ _ _ h1 h2 => le_trans h2 h1⟩

/-- In-place mutation of the first stored entry with the given session id. -/
def replaceFirst (lb : List LeaderboardEntry) (sid : String)
    (f : LeaderboardEntry → LeaderboardEntry) : List LeaderboardEntry :=
  match lb with
  | [] => []
  | x :: xs => if x.sessionId == sid then f x :: xs else x :: replaceFirst xs sid f

/-- enhanced_game.py `update_leaderboard`, update step (before sorting):
update the session's entry only when the new score strictly exceeds the stored
one, else create a new entry. -/
def updateStep (lb : List LeaderboardEntry) (sid playerName : String) (score : Int)
    (prestige : Int) (nowIso : String) : List LeaderboardEntry :=
  match lb.find? (fun e => e.sessionId == sid) with
  | some e =>
    if e.score < score then
      replaceFirst lb sid
        (fun x => { x with score := score, name := playerName, date := nowIso, prestigeCount := prestige })
    else lb
  | none =>
    lb ++ [{ name := playerName.take 20, score := score, date := nowIso,
             sessionId := sid, prestigeCount := prestige }]

/-- enhanced_game.py `update_leaderboard`: update step, sort descending, keep
the top 10, and return the sanitized view. -/
def update_leaderboard (lb : List LeaderboardEntry) (sid playerName : String) (score : Int)
    (prestige : Int) (nowIso : String) : List LeaderboardEntry :=
  (List.insertionSort scoreGe (updateStep lb sid playerName score prestige nowIso)).take 10

/-- enhanced_game.py `get_leaderboard`: top 10 by score, sanitized. -/
def get_leaderboard (lb : List LeaderboardEntry) : List PublicLeaderboardEntry :=
  sanitize_leaderboard ((List.insertionSort scoreGe lb).take 10)

end Enh

namespace Enh

/-- Aggregate factor contributed by the `prestige_1` global-multiplier upgrade
inside `get_global_multiplier`. -/
def prestige1Factor (upgrades : List UpgradeType) : ℚ :=
  match upgrades.find? (fun u => u.id == "prestige_1") with
  | some u => if u.owned > 0 then (u.multiplier : ℚ) ^ u.owned else 1
  | none => 1

/-- Sum of unlocked multiplier-achievement reward values. -/
def achievementBonus (achievements : List Achievement) : ℚ :=
  achievements.foldl
    (fun m a => if a.unlocked && a.rewardType == "multiplier" then m + a.rewardValue else m) 0

/-- Product of active boost multipliers. -/
def boostFactor (boosts : List Boost) : ℚ :=
  boosts.foldl (fun m b => if b.active then m * b.multiplier else m) 1

/-- Stated from the spec's words (§4.1 order of combination), for comparison
with the source's `get_global_multiplier`: sum all additive contributions
first — `1 + prestige-currency bonus + achievement bonuses` — and only then
multiply in each multiplicative contribution (prestige multiplier upgrades,
then active boosts). -/
def specOrder_global_multiplier (gs : GameState) (upgrades : List UpgradeType)
    (achievements : List Achievement) : ℚ :=
  (1 + (gs.bananaDNA : ℚ) * (1/100) + achievementBonus achievements) *
    prestige1Factor upgrades * boostFactor gs.activeBoosts

/-- Resulting session state of a purchase outcome, when the handler did not
crash. -/
def buyState? : BuyOutcome → Option GameState
  | .crash _ => none
  | .fail _ s _ => some s
  | .ok s _ => some s

/-- Resulting upgrade dict of a purchase outcome, when the handler did not
crash. -/
def buyUpgrades? : BuyOutcome → Option (List UpgradeType)
  | .crash _ => none
  | .fail _ _ l => some l
  | .ok _ l => some l

/-- Whether a purchase outcome is a success response. -/
def buyIsOk : BuyOutcome → Bool
  | .ok _ _ => true
  | _ => false

end Enh

section ConcreteInputs

/-- A fresh enhanced-module session state (the fields `create_initial_state`
zeroes, with wall-clock fields at 0). -/
def baseEnhState : Enh.GameState :=
  { sessionId := "session-0-ab", bananas := 0, bananasPerClick := 1, bananasPerSecond := 0,
    totalClicks := 0, lastSyncTime := 0, playerName := "", bananaDNA := 0,
    totalBananasEarned := 0, prestigeCount := 0, selectedSkin := "default",
    ownedSkins := ["default"], activeBoosts := [], lastEventCheck := 0 }

/-- An enhanced session producing one banana per second, last synced at epoch
0 ms. -/
def c5gs : Enh.GameState := { baseEnhState with bananasPerSecond := 1 }

/-- A main.py session with one banana per second, last synced at epoch 0 ms. -/
def c5mgs : Main.GameState :=
  { sessionId := "session-0-cd", bananas := 0, bananasPerClick := 1, bananasPerSecond := 1,
    totalClicks := 0, lastSyncTime := 0, playerName := "" }

/-- An enhanced session holding 1000 bananas. -/
def c3rich : Enh.GameState := { baseEnhState with bananas := 1000 }

/-- An enhanced session with exactly one billion lifetime bananas earned. -/
def c4gs : Enh.GameState := { baseEnhState with totalBananasEarned := 1000000000 }

/-- An enhanced session holding 5 bananas. -/
def c3poor : Enh.GameState := { baseEnhState with bananas := 5 }

/-- A session owning one `prestige_1` upgrade. -/
def c6ups : List Enh.UpgradeType :=
  [{ id := "prestige_1", name := "Banana Deity Blessing", baseCost := 10, multiplier := 5,
     type := "prestige", owned := 1, description := "x2 global multiplier (Cost: DNA)",
     unlockRequirement := some 1 }]

/-- One unlocked multiplier achievement worth +0.05. -/
def c6achs : List Enh.Achievement :=
  [{ id := "ach_prestige_1", name := "Ascended", description := "Prestige once",
     reqType := "prestige", reqValue := 1, rewardType := "multiplier", rewardValue := 1/20,
     unlocked := true, unlockedAt := some "t" }]

/-- The `click_1` catalog entry, as seeded by `create_default_upgrades`. -/
def click1 : Enh.UpgradeType :=
  { id := "click_1", name := "Better Fingers", baseCost := 10, multiplier := 1,
    type := "click", owned := 0, description := "🖱️ +1 banana per click",
    unlockRequirement := none }

/-- The `prestige_1` catalog entry, as seeded by `create_default_upgrades`. -/
def prest1 : Enh.UpgradeType :=
  { id := "prestige_1", name := "Banana Deity Blessing", baseCost := 10, multiplier := 5,
    type := "prestige", owned := 0, description := "x2 global multiplier (Cost: DNA)",
    unlockRequirement := some 1 }

/-- A main.py session created at epoch second 0 (as embedded in its
identifier) whose last sync happened at 25,200,000 ms, producing one banana
per second, with no clicks and no purchases. -/
def c1gs : Main.GameState :=
  { sessionId := "session-0-ab", bananas := 0, bananasPerClick := 1, bananasPerSecond := 1,
    totalClicks := 0, lastSyncTime := 25200000, playerName := "" }

/-- A stored main.py leaderboard with a single entry. -/
def c2lb : List Main.LeaderboardEntry :=
  [{ name := "alice", score := 5, date := "2024-01-01", sessionId := "session-1-aa" }]

/-- A stored main.py leaderboard with a single entry for session
`session-2-bb` scoring 7. -/
def c9lb : List Main.LeaderboardEntry :=
  [{ name := "bob", score := 7, date := "d0", sessionId := "session-2-bb" }]

end ConcreteInputs

/-- C1: the claim states that the lifetime plausibility bound measures
`sessionAge` from the session-creation time embedded in the session
identifier for every session whose score is validated.  The score-submission
bound in main.py (`calculate_maximum_possible_bananas`) instead measures it
from the last-sync timestamp, contradicting its own comment "(since session
creation)": for a session created at epoch 0 s, last synced at 25,200,000 ms,
validated at 28,800,000 ms with one banana per second and no clicks or
spending, it returns 3600 (one hour since last sync), while the
session-creation rule — the one validator.py implements — gives 28800. -/
theorem C1_session_age_divergence :
    Main.calculate_maximum_possible_bananas c1gs [] 28800000 = 3600 ∧
    Validator.max_from_time 1 "session-0-ab" 28800000 = some 28800 ∧
    Main.calculate_maximum_possible_bananas c1gs [] 28800000 ≠ 28800 := by
  refine ⟨?_, ?_, ?_⟩
  · simp [Main.calculate_maximum_possible_bananas, Main.calculate_total_spent_on_upgrades,
          c1gs, pyInt, min_def]
    norm_num
  · have h : Validator.session_creation_ms "session-0-ab" = some 0 := by
      have h0 : ((Validator.splitOnChar '-' "session-0-ab".data).get? 1).bind
          Validator.natOfDigits? = some 0 := by decide
      unfold Validator.session_creation_ms
      rw [h0]
      norm_num
    unfold Validator.max_from_time
    rw [h]
    simp [min_def]
    norm_num
  · intro hcontra
    have h1 : Main.calculate_maximum_possible_bananas c1gs [] 28800000 = 3600 := by
      simp [Main.calculate_maximum_possible_bananas, Main.calculate_total_spent_on_upgrades,
            c1gs, pyInt, min_def]
      norm_num
    rw [h1] at hcontra
    exact absurd hcontra (by decide)

/-- C2 counterexample: the main.py leaderboard endpoint
(`get_leaderboard_endpoint`, `response_model=List[LeaderboardEntry]`) returns
the stored entries themselves, so an external leaderboard read carries the
session identifier, refuting "never the session identifier". -/
theorem C2_counterexample :
    (Main.get_leaderboard c2lb).map (fun e => e.sessionId) = ["session-1-aa"] := by
  rfl

/-- C2 (amended): in enhanced_game.py every leaderboard read is sanitized to
name, score, date and prestige count — formally, the public leaderboard output
is invariant under arbitrary rewriting of the stored session identifiers; the
main.py leaderboard endpoint, by contrast, exposes the session identifier (see
the counterexample). -/
theorem C2_public_output_ignores_session_ids (lb : List Enh.LeaderboardEntry)
    (g : Enh.LeaderboardEntry → String) :
    Enh.get_leaderboard (lb.map (fun e => { e with sessionId := g e })) =
      Enh.get_leaderboard lb := by
  unfold Enh.get_leaderboard
  have hmap := List.map_insertionSort Enh.scoreGe Enh.scoreGe
      (fun e => { e with sessionId := g e }) lb (by intro a _ b _; exact Iff.rfl)
  rw [← hmap, ← List.map_take]
  unfold Enh.sanitize_leaderboard
  rw [List.map_map]
  rfl

/-- C10: `DEFAULT_ACHIEVEMENTS` lists seven achievements but two share the id
`"ach_prestige_2"`, so the per-session dict built by
`create_default_achievements` holds exactly six; the surviving
`"ach_prestige_2"` entry (last occurrence wins) is named "GOD" and described
"Prestige 100 times" while its unlock requirement is prestige count ≥ 10, and
no achievement in the catalog is gated at 100 prestiges. -/
theorem C10_achievement_catalog :
    Enh.DEFAULT_ACHIEVEMENTS.length = 7 ∧
    Enh.create_default_achievements.length = 6 ∧
    Enh.create_default_achievements.find? (fun a => a.id == "ach_prestige_2") =
      some { id := "ach_prestige_2", name := "GOD", description := "Prestige 100 times",
             reqType := "prestige", reqValue := 10, rewardType := "multiplier",
             rewardValue := 1/20, unlocked := false, unlockedAt := none } ∧
    (∀ a ∈ Enh.create_default_achievements, ¬(a.reqType = "prestige" ∧ a.reqValue = 100)) := by
  refine ⟨rfl, rfl, rfl, by decide⟩

/-- C8: in both sync implementations the clicks actually credited are
`min(pendingClicks, ceil(elapsedSeconds * 20))` — the excess is silently
dropped — and the sync still reports success. -/
theorem C8_click_rate_clamp (gsM : Main.GameState) (upgradesM : List Main.UpgradeType)
    (p : Int) (nowMs : ℚ)
    (gsE : Enh.GameState) (upgradesE : List Enh.UpgradeType) (achsE : List Enh.Achievement)
    (events : List Enh.ActiveEvent) (nowIso : String) :
    (Main.sync_game gsM upgradesM p nowMs).success = true ∧
    (Main.sync_game gsM upgradesM p nowMs).state.totalClicks =
      gsM.totalClicks + min p ⌈(nowMs - gsM.lastSyncTime) / 1000 * 20⌉ ∧
    (Enh.sync_game gsE upgradesE achsE p nowMs events nowIso).success = true ∧
    (Enh.sync_game gsE upgradesE achsE p nowMs events nowIso).state.totalClicks =
      gsE.totalClicks + min p ⌈(nowMs - gsE.lastSyncTime) / 1000 * 20⌉ := by
  refine ⟨rfl, ?_, rfl, rfl⟩
  show gsM.totalClicks +
      (if p > ⌈(nowMs - gsM.lastSyncTime) / 1000 * 20⌉ then
        ⌈(nowMs - gsM.lastSyncTime) / 1000 * 20⌉ else p) =
    gsM.totalClicks + min p ⌈(nowMs - gsM.lastSyncTime) / 1000 * 20⌉
  rw [min_def]
  split_ifs <;> omega

/-- C5 counterexample: an enhanced-module sync after 16 hours (57,600 s) with
one banana per second credits 57,600 bananas of time earnings — the claimed
formula `perSecondYield * min(e, 28800)` would give 28,800, so the 8-hour
offline cap is absent from `enhanced_game.sync_game`. -/
theorem C5_counterexample :
    (Enh.sync_game c5gs [] [] 0 57600000 [] "t").state.totalBananasEarned = 57600 ∧
    (1 : ℚ) * min ((57600000 - 0 : ℚ) / 1000) 28800 = 28800 ∧
    (57600 : ℚ) ≠ 28800 := by
  refine ⟨?_, by norm_num [min_def], by norm_num⟩
  simp [Enh.sync_game, c5gs, baseEnhState]
  norm_num

/-- C5 (amended): main.py computes time-based earnings as
`perSecondYield * min(elapsedSeconds, 28800)` (8-hour offline cap), but
`enhanced_game.sync_game` credits `perSecondYield * elapsedSeconds` with no
cap (shown here with no active events; rain events only scale that amount). -/
theorem C5_time_earnings (gsM : Main.GameState) (nowMs : ℚ)
    (hbps : 0 < gsM.bananasPerSecond)
    (gsE : Enh.GameState) (upg : List Enh.UpgradeType) (achs : List Enh.Achievement)
    (p : Int) (nowE : ℚ) (nowIso : String) :
    Main.calculate_time_based_earnings gsM nowMs =
      gsM.bananasPerSecond * min ((nowMs - gsM.lastSyncTime) / 1000) 28800 ∧
    (Enh.sync_game gsE upg achs p nowE [] nowIso).state.totalBananasEarned =
      gsE.totalBananasEarned +
        gsE.bananasPerSecond * ((nowE - gsE.lastSyncTime) / 1000) +
        ((min p ⌈(nowE - gsE.lastSyncTime) / 1000 * 20⌉ : Int) : ℚ) * (gsE.bananasPerClick : ℚ) := by
  constructor
  · unfold Main.calculate_time_based_earnings
    rw [if_neg (not_le.mpr hbps)]
  · show gsE.totalBananasEarned +
        (gsE.bananasPerSecond * ((nowE - gsE.lastSyncTime) / 1000) +
          ((min p ⌈(nowE - gsE.lastSyncTime) / 1000 * 20⌉ : Int) : ℚ) * (gsE.bananasPerClick : ℚ)) = _
    ring

/-- Witness for C5: the main.py formula evaluated on a concrete session with a
positive per-second yield. -/
theorem C5_witness :
    Main.calculate_time_based_earnings c5mgs 1000 =
      c5mgs.bananasPerSecond * min ((1000 - c5mgs.lastSyncTime) / 1000) 28800 :=
  (C5_time_earnings c5mgs 1000 (by norm_num [c5mgs]) c5gs [] [] 0 0 "t").1

/-- Shifting lemma for the achievement-bonus fold in `get_global_multiplier`. -/
theorem achievementBonus_shift (achs : List Enh.Achievement) (x : ℚ) :
    achs.foldl
      (fun m a => if a.unlocked && a.rewardType == "multiplier" then m + a.rewardValue else m) x =
    x + Enh.achievementBonus achs := by
  induction achs generalizing x with
  | nil => simp [Enh.achievementBonus]
  | cons a l ih =>
    simp only [Enh.achievementBonus, List.foldl_cons]
    by_cases h : a.unlocked && a.rewardType == "multiplier"
    · rw [if_pos h, if_pos h, ih, ih]
      ring
    · rw [if_neg h, if_neg h, ih, ih]
      ring

/-- Shifting lemma for the boost fold in `get_global_multiplier`. -/
theorem boostFactor_shift (boosts : List Enh.Boost) (x : ℚ) :
    boosts.foldl (fun m b => if b.active then m * b.multiplier else m) x =
    x * Enh.boostFactor boosts := by
  induction boosts generalizing x with
  | nil => simp [Enh.boostFactor]
  | cons b l ih =>
    simp only [Enh.boostFactor, List.foldl_cons]
    by_cases h : b.active
    · rw [if_pos h, if_pos h, ih, ih]
      ring
    · rw [if_neg h, if_neg h, ih, ih]
      ring

/-- C6 (amended): `get_global_multiplier` adds the DNA bonus to 1, multiplies
in the `prestige_1` upgrade factor, *then* adds the achievement bonuses, and
finally multiplies in the active boost factors — achievement additive bonuses
land after the prestige multiplicative factor, not before it as claimed. -/
theorem C6_multiplier_order (gs : Enh.GameState) (upgrades : List Enh.UpgradeType)
    (achievements : List Enh.Achievement) :
    Enh.get_global_multiplier gs upgrades achievements =
      ((1 + (gs.bananaDNA : ℚ) * (1/100)) * Enh.prestige1Factor upgrades +
        Enh.achievementBonus achievements) * Enh.boostFactor gs.activeBoosts := by
  unfold Enh.get_global_multiplier Enh.prestige1Factor
  cases hfind : upgrades.find? (fun u => u.id == "prestige_1") with
  | none =>
    dsimp only
    rw [achievementBonus_shift, boostFactor_shift]
    ring
  | some u =>
    dsimp only
    by_cases h : u.owned > 0
    · rw [if_pos h, if_pos h, achievementBonus_shift, boostFactor_shift]
    · rw [if_neg h, if_neg h, achievementBonus_shift, boostFactor_shift]
      ring

/-- C6 counterexample: with zero DNA, one owned `prestige_1` upgrade
(multiplier 5) and one unlocked +0.05 achievement, the source computes
`(1 * 5) + 0.05 = 5.05`, while the claimed sum-first-then-multiply order
gives `(1 + 0.05) * 5 = 5.25`. -/
theorem C6_counterexample :
    Enh.get_global_multiplier baseEnhState c6ups c6achs = 101/20 ∧
    Enh.specOrder_global_multiplier baseEnhState c6ups c6achs = 21/4 ∧
    (101/20 : ℚ) ≠ 21/4 := by
  refine ⟨?_, ?_, by norm_num⟩
  · simp [Enh.get_global_multiplier, baseEnhState, c6ups, c6achs]
    norm_num
  · simp [Enh.specOrder_global_multiplier, Enh.prestige1Factor, Enh.achievementBonus,
          Enh.boostFactor, baseEnhState, c6ups, c6achs]
    norm_num

/-- enhanced_game.py `buy_upgrade` on an upgrade carrying an unlock
requirement: both control-flow branches reference the local `cost` before it
is assigned, so the handler raises `NameError` no matter the prestige count. -/
theorem enh_buy_locked (gs : Enh.GameState) (upgrades : List Enh.UpgradeType)
    (achs : List Enh.Achievement) (uid : String) (u : Enh.UpgradeType) (req : Int)
    (hf : upgrades.find? (fun v => v.id == uid) = some u)
    (hreq : u.unlockRequirement = some req) :
    Enh.buy_upgrade gs upgrades achs uid = .crash "NameError" := by
  unfold Enh.buy_upgrade
  rw [hf]
  dsimp only
  rw [hreq]
  dsimp only
  exact ite_self _

/-- enhanced_game.py `buy_upgrade` on an ungated non-prestige upgrade with
insufficient funds: the failure message indexes `unlockRequirement['prestigeCount']`
on `None`, raising `TypeError` instead of returning an InsufficientFunds
response. -/
theorem enh_buy_poor (gs : Enh.GameState) (upgrades : List Enh.UpgradeType)
    (achs : List Enh.Achievement) (uid : String) (u : Enh.UpgradeType)
    (hf : upgrades.find? (fun v => v.id == uid) = some u)
    (hreq : u.unlockRequirement = none)
    (hT : (u.type == "prestige") = false)
    (hfunds : gs.bananas < ((Enh.calculate_upgrade_cost u : Int) : ℚ)) :
    Enh.buy_upgrade gs upgrades achs uid = .crash "TypeError" := by
  unfold Enh.buy_upgrade
  rw [hf]
  dsimp only
  rw [hreq]
  dsimp only
  rw [hT, if_neg Bool.false_ne_true]
  rw [if_pos hfunds]

/-- enhanced_game.py `buy_upgrade` on an ungated non-prestige upgrade with
sufficient funds: the owned count is incremented and yields are recomputed,
but `gs.bananas` is never debited. -/
theorem enh_buy_funded (gs : Enh.GameState) (upgrades : List Enh.UpgradeType)
    (achs : List Enh.Achievement) (uid : String) (u : Enh.UpgradeType)
    (hf : upgrades.find? (fun v => v.id == uid) = some u)
    (hreq : u.unlockRequirement = none)
    (hT : (u.type == "prestige") = false)
    (hfunds : ¬gs.bananas < ((Enh.calculate_upgrade_cost u : Int) : ℚ)) :
    Enh.buy_upgrade gs upgrades achs uid =
      .ok
        { gs with
          bananasPerClick := Enh.calculate_bananas_per_click
            (upgrades.map (fun v => if v.id == uid then { v with owned := v.owned + 1 } else v)) gs achs
          bananasPerSecond := Enh.calculate_bananas_per_second
            (upgrades.map (fun v => if v.id == uid then { v with owned := v.owned + 1 } else v)) gs achs }
        (upgrades.map (fun v => if v.id == uid then { v with owned := v.owned + 1 } else v)) := by
  unfold Enh.buy_upgrade
  rw [hf]
  dsimp only
  rw [hreq]
  dsimp only
  rw [hT, if_neg Bool.false_ne_true]
  rw [if_neg hfunds]

/-- C3: the purchase path of enhanced_game.py violates the claim at concrete
catalog inputs.  A session with 1000 bananas buying `click_1` (cost 10)
succeeds, increments the owned count to 1 — and leaves the balance at 1000,
never debited; a session with 5 bananas gets a `TypeError` crash (formatting a
message from a `None` unlock requirement) rather than a clean InsufficientFunds
failure; and any purchase of the unlock-gated `prestige_1` upgrade crashes
with `NameError` on an unassigned local.  (main.py implements the claimed
behaviour; see `main_buy_upgrade_correct`.) -/
theorem C3_enhanced_purchase_bug :
    Enh.buyIsOk (Enh.buy_upgrade c3rich Enh.create_default_upgrades [] "click_1") = true ∧
    (Enh.buyState? (Enh.buy_upgrade c3rich Enh.create_default_upgrades [] "click_1")).map
        (fun s => s.bananas) = some 1000 ∧
    ((Enh.buyUpgrades? (Enh.buy_upgrade c3rich Enh.create_default_upgrades [] "click_1")).bind
        (fun l => l.find? (fun v => v.id == "click_1"))).map (fun v => v.owned) = some 1 ∧
    Enh.calculate_upgrade_cost click1 = 10 ∧
    Enh.buy_upgrade c3poor Enh.create_default_upgrades [] "click_1" = .crash "TypeError" ∧
    Enh.buy_upgrade c3rich Enh.create_default_upgrades [] "prestige_1" = .crash "NameError" := by
  have hf : Enh.create_default_upgrades.find? (fun v => v.id == "click_1") = some click1 := by rfl
  have hfp : Enh.create_default_upgrades.find? (fun v => v.id == "prestige_1") = some prest1 := by
    rfl
  have hcost : Enh.calculate_upgrade_cost click1 = 10 := by
    norm_num [Enh.calculate_upgrade_cost, click1]
  have hfunds : ¬c3rich.bananas < ((Enh.calculate_upgrade_cost click1 : Int) : ℚ) := by
    rw [hcost]
    simp [c3rich, baseEnhState]
    norm_num
  have hok := enh_buy_funded c3rich Enh.create_default_upgrades [] "click_1" click1 hf rfl rfl hfunds
  refine ⟨?_, ?_, ?_, hcost, ?_, ?_⟩
  · rw [hok]
    rfl
  · rw [hok]
    rfl
  · rw [hok]
    rfl
  · refine enh_buy_poor c3poor Enh.create_default_upgrades [] "click_1" click1 hf rfl rfl ?_
    rw [hcost]
    simp [c3poor, baseEnhState]
    norm_num
  · exact enh_buy_locked c3rich Enh.create_default_upgrades [] "prestige_1" prest1 1 hfp rfl

/-- main.py `buy_upgrade` implements the claimed purchase rule: with balance
strictly below the cost the purchase fails and state and upgrades are returned
unchanged; otherwise the balance is debited by exactly the cost and the owned
count of the purchased upgrade is incremented by one. -/
theorem main_buy_upgrade_correct (gs : Main.GameState) (upgrades : List Main.UpgradeType)
    (uid : String) (u : Main.UpgradeType)
    (hf : upgrades.find? (fun v => v.id == uid) = some u) :
    (gs.bananas < ((Main.calculate_upgrade_cost u : Int) : ℚ) →
      Main.buy_upgrade gs upgrades uid = .fail "Not enough bananas" gs upgrades) ∧
    (¬gs.bananas < ((Main.calculate_upgrade_cost u : Int) : ℚ) →
      Main.buy_upgrade gs upgrades uid =
        .ok
          { gs with
            bananas := gs.bananas - ((Main.calculate_upgrade_cost u : Int) : ℚ)
            bananasPerClick := Main.calculate_bananas_per_click
              (upgrades.map (fun v => if v.id == uid then { v with owned := v.owned + 1 } else v))
            bananasPerSecond := Main.calculate_bananas_per_second
              (upgrades.map (fun v => if v.id == uid then { v with owned := v.owned + 1 } else v)) }
          (upgrades.map (fun v => if v.id == uid then { v with owned := v.owned + 1 } else v))) := by
  unfold Main.buy_upgrade
  rw [hf]
  dsimp only
  constructor
  · intro h
    rw [if_pos h]
  · intro h
    rw [if_neg h]

/-- C4 counterexample: a successful prestige on a session whose lifetime
earned total is exactly one billion resets that total to zero — a strict
decrease across the prestige transition, refuting "never decreases, even
across prestige". -/
theorem C4_counterexample :
    c4gs.totalBananasEarned = 1000000000 ∧
    (Enh.prestige_game c4gs [] [] 0 "t").success = true ∧
    (Enh.prestige_game c4gs [] [] 0 "t").state.totalBananasEarned = 0 ∧
    (Enh.prestige_game c4gs [] [] 0 "t").state.totalBananasEarned < c4gs.totalBananasEarned := by
  have hn : ¬c4gs.totalBananasEarned < 1000000000 := by
    simp [c4gs, baseEnhState]
  refine ⟨rfl, ?_, ?_, ?_⟩
  · unfold Enh.prestige_game
    rw [if_neg hn]
  · unfold Enh.prestige_game
    rw [if_neg hn]
  · unfold Enh.prestige_game
    rw [if_neg hn]
    show (0 : ℚ) < c4gs.totalBananasEarned
    norm_num [c4gs, baseEnhState]

/-- The rain-event multiplier fold preserves non-negativity of time
earnings. -/
theorem rain_fold_nonneg (events : List Enh.ActiveEvent) (x : ℚ) (hx : 0 ≤ x)
    (hev : ∀ ev ∈ events, 0 ≤ ev.multiplier) :
    0 ≤ events.foldl (fun te ev => if ev.type == "rain" then te * ev.multiplier else te) x := by
  induction events generalizing x with
  | nil => exact hx
  | cons ev l ih =>
    rw [List.foldl_cons]
    refine ih _ ?_ (fun e he => hev e (List.mem_cons_of_mem ev he))
    by_cases h : ev.type == "rain"
    · rw [if_pos h]
      exact mul_nonneg hx (hev ev (List.mem_cons_self ev l))
    · rwa [if_neg h]

/-- C4 (amended): the lifetime earned total is monotonically non-decreasing
across sync (for non-negative elapsed time, yields, pending clicks and event
multipliers), is untouched by any successful purchase, and is non-decreasing
across a golden-event click — but the prestige transition resets it to zero.
-/
theorem C4_lifetime_monotone_except_prestige :
    (∀ (gs : Enh.GameState) (upg : List Enh.UpgradeType) (achs : List Enh.Achievement)
      (p : Int) (nowMs : ℚ) (events : List Enh.ActiveEvent) (nowIso : String),
      gs.lastSyncTime ≤ nowMs → 0 ≤ gs.bananasPerSecond → 0 ≤ gs.bananasPerClick → 0 ≤ p →
      (∀ ev ∈ events, 0 ≤ ev.multiplier) →
      gs.totalBananasEarned ≤
        (Enh.sync_game gs upg achs p nowMs events nowIso).state.totalBananasEarned) ∧
    (∀ (gs : Enh.GameState) (upg ups2 : List Enh.UpgradeType) (achs : List Enh.Achievement)
      (uid : String) (gs2 : Enh.GameState),
      Enh.buy_upgrade gs upg achs uid = .ok gs2 ups2 →
      gs2.totalBananasEarned = gs.totalBananasEarned) ∧
    (∀ gs : Enh.GameState,
      gs.totalBananasEarned ≤ (Enh.click_event_golden gs).2.totalBananasEarned) ∧
    (∀ (gs : Enh.GameState) (upg : List Enh.UpgradeType) (achs : List Enh.Achievement)
      (nowMs : ℚ) (nowIso : String),
      ¬gs.totalBananasEarned < 1000000000 →
      (Enh.prestige_game gs upg achs nowMs nowIso).state.totalBananasEarned = 0) := by
  refine ⟨?_, ?_, ?_, ?_⟩
  · intro gs upg achs p nowMs events nowIso hnow hbps hbpc hp hev
    unfold Enh.sync_game
    dsimp only
    apply le_add_of_nonneg_right
    have ht : (0 : ℚ) ≤ (nowMs - gs.lastSyncTime) / 1000 := by
      apply div_nonneg (by linarith) (by norm_num)
    apply add_nonneg
    · exact rain_fold_nonneg events _ (mul_nonneg hbps ht) hev
    · apply mul_nonneg _ (by exact_mod_cast hbpc)
      have hceil : (0 : Int) ≤ ⌈(nowMs - gs.lastSyncTime) / 1000 * 20⌉ :=
        Int.ceil_nonneg (by positivity)
      have : (0 : Int) ≤ min p ⌈(nowMs - gs.lastSyncTime) / 1000 * 20⌉ := le_min hp hceil
      exact_mod_cast this
  · intro gs upg ups2 achs uid gs2 h
    unfold Enh.buy_upgrade at h
    cases hf : upg.find? (fun v => v.id == uid) with
    | none =>
      rw [hf] at h
      cases h
    | some u =>
      rw [hf] at h
      dsimp only at h
      cases hreq : u.unlockRequirement with
      | some r =>
        rw [hreq] at h
        dsimp only at h
        rw [ite_self] at h
        cases h
      | none =>
        rw [hreq] at h
        dsimp only at h
        by_cases ht : (u.type == "prestige") = true
        · rw [if_pos ht] at h
          by_cases hdna : gs.bananaDNA < Enh.calculate_upgrade_cost u
          · rw [if_pos hdna] at h
            cases h
          · rw [if_neg hdna] at h
            cases h
            rfl
        · rw [if_neg ht] at h
          by_cases hb : gs.bananas < ((Enh.calculate_upgrade_cost u : Int) : ℚ)
          · rw [if_pos hb] at h
            cases h
          · rw [if_neg hb] at h
            cases h
            rfl
  · intro gs
    apply le_add_of_nonneg_right
    have h100 : (100 : Int) ≤ max (pyInt (gs.bananas * (1/100))) 100 := le_max_right _ _
    have : (0 : Int) ≤ max (pyInt (gs.bananas * (1/100))) 100 := le_trans (by norm_num) h100
    exact_mod_cast this
  · intro gs upg achs nowMs nowIso h
    unfold Enh.prestige_game
    rw [if_neg h]

/-- Witness for C4: the sync and prestige conjuncts instantiated at concrete
sessions. -/
theorem C4_witness :
    baseEnhState.totalBananasEarned ≤
      (Enh.sync_game baseEnhState [] [] 0 1000 [] "t").state.totalBananasEarned ∧
    (Enh.prestige_game c4gs [] [] 0 "t").state.totalBananasEarned = 0 := by
  constructor
  · exact C4_lifetime_monotone_except_prestige.1 baseEnhState [] [] 0 1000 [] "t"
      (by norm_num [baseEnhState]) (by norm_num [baseEnhState]) (by norm_num [baseEnhState])
      le_rfl (by simp)
  · exact C4_lifetime_monotone_except_prestige.2.2.2 c4gs [] [] 0 "t"
      (by norm_num [c4gs, baseEnhState])

/-- When upgrade ids are pairwise distinct, the first prestige-filtered
upgrade found by id is the upgrade itself. -/
theorem find_prestige_of_nodup (l : List Enh.UpgradeType)
    (hids : (l.map (fun v => v.id)).Nodup) (u : Enh.UpgradeType)
    (hu : u ∈ l) (hp : (u.type == "prestige") = true) :
    (l.filter (fun v => v.type == "prestige")).find? (fun v => v.id == u.id) = some u := by
  induction l with
  | nil => cases hu
  | cons a rest ih =>
    simp only [List.map_cons, List.nodup_cons] at hids
    rcases List.mem_cons.mp hu with rfl | hmem
    · have hfp : List.filter (fun v => v.type == "prestige") (u :: rest) =
          u :: List.filter (fun v => v.type == "prestige") rest := List.filter_cons_of_pos hp
      rw [hfp]
      exact List.find?_cons_of_pos _ (beq_self_eq_true u.id)
    · by_cases hap : (a.type == "prestige") = true
      · have hfp : List.filter (fun v => v.type == "prestige") (a :: rest) =
            a :: List.filter (fun v => v.type == "prestige") rest := List.filter_cons_of_pos hap
        rw [hfp]
        have hne : ¬(a.id == u.id) = true := by
          simp only [beq_iff_eq]
          intro hEq
          exact hids.1 (hEq ▸ List.mem_map.mpr ⟨u, hmem, rfl⟩)
        have hfind : List.find? (fun v => v.id == u.id)
            (a :: List.filter (fun v => v.type == "prestige") rest) =
            List.find? (fun v => v.id == u.id)
              (List.filter (fun v => v.type == "prestige") rest) :=
          List.find?_cons_of_neg _ hne
        rw [hfind]
        exact ih hids.2 hmem
      · have hfn : List.filter (fun v => v.type == "prestige") (a :: rest) =
            List.filter (fun v => v.type == "prestige") rest :=
          List.filter_cons_of_neg (by simpa using hap)
        rw [hfn]
        exact ih hids.2 hmem

/-- C7: `prestige_game` fails below one billion lifetime bananas leaving
state, upgrades (response payload empty, as in the source) and achievements
untouched; at exactly one billion it succeeds, awards
`floor(lifetime / 100,000,000) = 10` prestige currency, zeroes current
currency and total clicks, increments the prestige count, and preserves
prestige-category upgrade records (owned counts included), already-unlocked
achievements, the player name and cosmetics. -/
theorem C7_prestige_transition (gs : Enh.GameState) (upgrades : List Enh.UpgradeType)
    (achs : List Enh.Achievement) (nowMs : ℚ) (nowIso : String)
    (hids : (upgrades.map (fun v => v.id)).Nodup) :
    (gs.totalBananasEarned < 1000000000 →
      Enh.prestige_game gs upgrades achs nowMs nowIso = ⟨false, gs, [], achs, 0⟩) ∧
    (gs.totalBananasEarned = 1000000000 →
      (Enh.prestige_game gs upgrades achs nowMs nowIso).success = true ∧
      (Enh.prestige_game gs upgrades achs nowMs nowIso).bananaDNAGained = 10 ∧
      (Enh.prestige_game gs upgrades achs nowMs nowIso).state.bananas = 0 ∧
      (Enh.prestige_game gs upgrades achs nowMs nowIso).state.totalClicks = 0 ∧
      (Enh.prestige_game gs upgrades achs nowMs nowIso).state.prestigeCount =
        gs.prestigeCount + 1 ∧
      (Enh.prestige_game gs upgrades achs nowMs nowIso).state.bananaDNA = gs.bananaDNA + 10 ∧
      (Enh.prestige_game gs upgrades achs nowMs nowIso).state.playerName = gs.playerName ∧
      (Enh.prestige_game gs upgrades achs nowMs nowIso).state.ownedSkins = gs.ownedSkins ∧
      (Enh.prestige_game gs upgrades achs nowMs nowIso).state.selectedSkin = gs.selectedSkin ∧
      (∀ u ∈ upgrades, (u.type == "prestige") = true →
        u.id ∈ Enh.create_default_upgrades.map (fun d => d.id) →
        u ∈ (Enh.prestige_game gs upgrades achs nowMs nowIso).upgrades) ∧
      (∀ a ∈ achs, a.unlocked = true →
        a ∈ (Enh.prestige_game gs upgrades achs nowMs nowIso).achievements)) := by
  constructor
  · intro h
    unfold Enh.prestige_game
    rw [if_pos h]
  · intro h
    have hn : ¬gs.totalBananasEarned < 1000000000 := by
      rw [h]
      exact lt_irrefl _
    have hdna : pyInt (gs.totalBananasEarned / 100000000) = 10 := by
      rw [h]
      norm_num [pyInt]
    unfold Enh.prestige_game
    rw [if_neg hn]
    dsimp only
    refine ⟨rfl, hdna, rfl, rfl, rfl, by rw [hdna], rfl, rfl, rfl, ?_, ?_⟩
    · intro u hu hp hid
      obtain ⟨d, hd, hdid⟩ := List.mem_map.mp hid
      refine List.mem_map.mpr ⟨d, hd, ?_⟩
      rw [hdid, find_prestige_of_nodup upgrades hids u hu hp]
    · intro a ha haunl
      refine List.mem_map.mpr ⟨a, ha, ?_⟩
      simp [haunl]

/-- Witness for C7: the success branch instantiated at a session with exactly
one billion lifetime bananas. -/
theorem C7_witness :
    (Enh.prestige_game c4gs [] [] 0 "t").success = true ∧
    (Enh.prestige_game c4gs [] [] 0 "t").bananaDNAGained = 10 ∧
    (Enh.prestige_game c4gs [] [] 0 "t").state.prestigeCount = c4gs.prestigeCount + 1 := by
  have h := (C7_prestige_transition c4gs [] [] 0 "t" (by simp)).2 rfl
  exact ⟨h.1, h.2.1, h.2.2.2.2.1⟩

/-- Updating the first entry with a given session id preserves which entry a
subsequent find-by-session-id returns (main.py entries). -/
theorem main_replaceFirst_find? (lb : List Main.LeaderboardEntry) (sid : String)
    (f : Main.LeaderboardEntry → Main.LeaderboardEntry)
    (hf : ∀ x, (f x).sessionId = x.sessionId)
    (e : Main.LeaderboardEntry)
    (he : lb.find? (fun x => x.sessionId == sid) = some e) :
    (Main.replaceFirst lb sid f).find? (fun x => x.sessionId == sid) = some (f e) := by
  induction lb with
  | nil => cases he
  | cons x xs ih =>
    by_cases hx : (x.sessionId == sid) = true
    · have hstep : List.find? (fun y => y.sessionId == sid) (x :: xs) = some x :=
        List.find?_cons_of_pos _ hx
      rw [hstep] at he
      cases he
      unfold Main.replaceFirst
      rw [if_pos hx]
      have hfx : ((f e).sessionId == sid) = true := by rw [hf e]; exact hx
      exact List.find?_cons_of_pos _ hfx
    · have hstep : List.find? (fun y => y.sessionId == sid) (x :: xs) =
          List.find? (fun y => y.sessionId == sid) xs := List.find?_cons_of_neg _ hx
      rw [hstep] at he
      unfold Main.replaceFirst
      rw [if_neg hx]
      have hstep2 : List.find? (fun y => y.sessionId == sid) (x :: Main.replaceFirst xs sid f) =
          List.find? (fun y => y.sessionId == sid) (Main.replaceFirst xs sid f) :=
        List.find?_cons_of_neg _ hx
      rw [hstep2]
      exact ih he

/-- Updating the first entry with a given session id preserves which entry a
subsequent find-by-session-id returns (enhanced entries). -/
theorem enh_replaceFirst_find? (lb : List Enh.LeaderboardEntry) (sid : String)
    (f : Enh.LeaderboardEntry → Enh.LeaderboardEntry)
    (hf : ∀ x, (f x).sessionId = x.sessionId)
    (e : Enh.LeaderboardEntry)
    (he : lb.find? (fun x => x.sessionId == sid) = some e) :
    (Enh.replaceFirst lb sid f).find? (fun x => x.sessionId == sid) = some (f e) := by
  induction lb with
  | nil => cases he
  | cons x xs ih =>
    by_cases hx : (x.sessionId == sid) = true
    · have hstep : List.find? (fun y => y.sessionId == sid) (x :: xs) = some x :=
        List.find?_cons_of_pos _ hx
      rw [hstep] at he
      cases he
      unfold Enh.replaceFirst
      rw [if_pos hx]
      have hfx : ((f e).sessionId == sid) = true := by rw [hf e]; exact hx
      exact List.find?_cons_of_pos _ hfx
    · have hstep : List.find? (fun y => y.sessionId == sid) (x :: xs) =
          List.find? (fun y => y.sessionId == sid) xs := List.find?_cons_of_neg _ hx
      rw [hstep] at he
      unfold Enh.replaceFirst
      rw [if_neg hx]
      have hstep2 : List.find? (fun y => y.sessionId == sid) (x :: Enh.replaceFirst xs sid f) =
          List.find? (fun y => y.sessionId == sid) (Enh.replaceFirst xs sid f) :=
        List.find?_cons_of_neg _ hx
      rw [hstep2]
      exact ih he

/-- C9: in both leaderboard implementations, when a session already has a
stored entry a submission with a lower-or-equal score leaves the stored list
untouched, a strictly higher score replaces the entry's score and date, and
after any update the stored leaderboard has at most 10 entries, each scoring
at least as much as every entry dropped by the truncation (main.py's result is
additionally sorted descending). -/
theorem C9_leaderboard :
    (∀ (lb : List Main.LeaderboardEntry) (sid pname : String) (score : Int) (nowIso : String)
      (e : Main.LeaderboardEntry),
      lb.find? (fun x => x.sessionId == sid) = some e →
      (score ≤ e.score → Main.updateStep lb sid pname score nowIso = lb) ∧
      (e.score < score →
        ∃ e2, (Main.updateStep lb sid pname score nowIso).find?
              (fun x => x.sessionId == sid) = some e2 ∧
          e2.score = score ∧ e2.date = nowIso) ∧
      (Main.update_leaderboard lb sid pname score nowIso).length ≤ 10 ∧
      List.Sorted Main.scoreGe (Main.update_leaderboard lb sid pname score nowIso) ∧
      (∀ x ∈ (List.insertionSort Main.scoreGe (Main.updateStep lb sid pname score nowIso)).drop 10,
        ∀ y ∈ Main.update_leaderboard lb sid pname score nowIso, x.score ≤ y.score)) ∧
    (∀ (lb : List Enh.LeaderboardEntry) (sid pname : String) (score prestige : Int)
      (nowIso : String) (e : Enh.LeaderboardEntry),
      lb.find? (fun x => x.sessionId == sid) = some e →
      (score ≤ e.score → Enh.updateStep lb sid pname score prestige nowIso = lb) ∧
      (e.score < score →
        ∃ e2, (Enh.updateStep lb sid pname score prestige nowIso).find?
              (fun x => x.sessionId == sid) = some e2 ∧
          e2.score = score ∧ e2.date = nowIso) ∧
      (Enh.update_leaderboard lb sid pname score prestige nowIso).length ≤ 10 ∧
      (∀ x ∈ (List.insertionSort Enh.scoreGe
          (Enh.updateStep lb sid pname score prestige nowIso)).drop 10,
        ∀ y ∈ Enh.update_leaderboard lb sid pname score prestige nowIso, x.score ≤ y.score)) := by
  constructor
  · intro lb sid pname score nowIso e hfind
    refine ⟨?_, ?_, ?_, ?_, ?_⟩
    · intro hle
      unfold Main.updateStep
      rw [hfind]
      dsimp only
      rw [if_neg (not_lt.mpr hle)]
    · intro hlt
      unfold Main.updateStep
      rw [hfind]
      dsimp only
      rw [if_pos hlt]
      refine ⟨_, main_replaceFirst_find? lb sid
        (fun x => { x with score := score, name := pname, date := nowIso })
        (fun x => rfl) e hfind, rfl, rfl⟩
    · unfold Main.update_leaderboard
      rw [List.length_take]
      exact min_le_left _ _
    · exact List.Pairwise.sublist (List.take_sublist 10 _)
        (List.sorted_insertionSort Main.scoreGe _)
    · intro x hx y hy
      have hs := List.sorted_insertionSort Main.scoreGe (Main.updateStep lb sid pname score nowIso)
      rw [← List.take_append_drop 10
        (List.insertionSort Main.scoreGe (Main.updateStep lb sid pname score nowIso))] at hs
      exact (List.pairwise_append.mp hs).2.2 y hy x hx
  · intro lb sid pname score prestige nowIso e hfind
    refine ⟨?_, ?_, ?_, ?_⟩
    · intro hle
      unfold Enh.updateStep
      rw [hfind]
      dsimp only
      rw [if_neg (not_lt.mpr hle)]
    · intro hlt
      unfold Enh.updateStep
      rw [hfind]
      dsimp only
      rw [if_pos hlt]
      refine ⟨_, enh_replaceFirst_find? lb sid
        (fun x => { x with score := score, name := pname, date := nowIso, prestigeCount := prestige })
        (fun x => rfl) e hfind, rfl, rfl⟩
    · unfold Enh.update_leaderboard
      rw [List.length_take]
      exact min_le_left _ _
    · intro x hx y hy
      have hs := List.sorted_insertionSort Enh.scoreGe
        (Enh.updateStep lb sid pname score prestige nowIso)
      rw [← List.take_append_drop 10
        (List.insertionSort Enh.scoreGe (Enh.updateStep lb sid pname score prestige nowIso))] at hs
      exact (List.pairwise_append.mp hs).2.2 y hy x hx


/-- Witness for C9: the monotone-update and length bounds instantiated on a
concrete one-entry leaderboard. -/
theorem C9_witness :
    Main.updateStep c9lb "session-2-bb" "carol" 5 "d1" = c9lb ∧
    (Main.update_leaderboard c9lb "session-2-bb" "carol" 9 "d1").length ≤ 10 := by
  refine ⟨?_, ?_⟩
  · exact (C9_leaderboard.1 c9lb "session-2-bb" "carol" 5 "d1"
      { name := "bob", score := 7, date := "d0", sessionId := "session-2-bb" } rfl).1
      (by norm_num)
  · exact (C9_leaderboard.1 c9lb "session-2-bb" "carol" 9 "d1"
      { name := "bob", score := 7, date := "d0", sessionId := "session-2-bb" } rfl).2.2.1
